import Mathlib

/-!
# Verification of the BadgerDB B+-tree index (`src/src/btree.cpp`)

A shallow embedding of the index's operations, faithful to the C++ source.
Node structs, the `Operator` and `Datatype` enums and the array capacities
live in the (absent) header `btree.h`; their shapes are modelled from the
spec's data model (§3) exactly as the `.cpp` file uses them.  Fixed-size
C arrays become Lean lists whose length is the capacity; the portion at and
beyond `occupied = capacity - spaceAvail` holds stale (uninitialised) values,
just as the C arrays do.  An out-of-bounds array read in the C++ is undefined
behaviour; operations that can perform one return `Option` and yield `none`
there.
-/

namespace BadgerBTree

/-- Page identifier.  `0` is `Page::INVALID_NUMBER` ("no such page"). -/
abbrev PageId := Nat

/-- `Page::INVALID_NUMBER`, the sentinel terminating the leaf sibling chain. -/
def INVALID_PAGE : PageId := 0

/-- `RecordId`: locator `(page_number, slot_number)` of a tuple in the base
relation.  The index stores these as opaque values. -/
structure RecordId where
  page_number : Nat
  slot_number : Nat
deriving DecidableEq, Repr

instance : Inhabited RecordId := ⟨⟨0, 0⟩⟩

/-- Modelled from the spec: the scan operators (`low_op ∈ {GT, GTE}`,
`high_op ∈ {LT, LTE}`) of `badgerdb::Operator`. -/
inductive Operator
  | LT
  | LTE
  | GTE
  | GT
deriving DecidableEq, Repr

/-- Modelled from the spec: the attribute type tag; this core supports only
`INTEGER`. -/
inductive Datatype
  | INTEGER
  | DOUBLE
  | STRING
deriving DecidableEq, Repr

/-- The behavioural error kinds the index raises (exceptions in the C++). -/
inductive BTError
  | BadIndexInfo
  | BadOpcodes
  | BadScanrange
  | NoSuchKeyFound
  | ScanNotInitialized
  | IndexScanCompleted
deriving DecidableEq, Repr

/-- `LeafNodeInt`, modelled from the spec's leaf layout (§3) as the `.cpp`
uses it: parallel arrays `keyArray`/`ridArray` of length `INTARRAYLEAFSIZE`
(= `keys.length` here), the free-slot counter `spaceAvail`
(`occupied = capacity - spaceAvail`), the sibling pointer and the parent
back-pointer the source maintains. -/
structure LeafNodeInt where
  keys : List Int
  rids : List RecordId
  spaceAvail : Nat
  rightSibPageNo : PageId
  parentId : Int
deriving DecidableEq, Repr

/-- `NonLeafNodeInt`: separator keys, `N+1` child page ids, free-slot
counter, the `level` flag (1 iff the children are leaves) and the parent
back-pointer. -/
structure NonLeafNodeInt where
  keys : List Int
  pageNoArray : List PageId
  spaceAvail : Nat
  level : Int
  parentId : Int
deriving DecidableEq, Repr

/-- Number of valid entries of a leaf: `capacity - spaceAvail`, exactly how
the source computes `numNode`. -/
def LeafNodeInt.occupied (n : LeafNodeInt) : Nat :=
  n.keys.length - n.spaceAvail

/-- The valid `(key, RID)` prefix of a leaf (entries `[0, occupied)`). -/
def leafEntries (n : LeafNodeInt) : List (Int × RecordId) :=
  (n.keys.zip n.rids).take n.occupied

/-- The in-place array swap of two slots the sort loops perform. -/
def listSwap [Inhabited α] (l : List α) (i j : Nat) : List α :=
  (l.set i (l.getD j default)).set j (l.getD i default)

/-- The sort loop of `insertIntoLeafNode` (btree.cpp:292-307), verbatim:
`for (int i = numNode; i > 0; i++)` — the index is *incremented* — swap
`(i-1, i)` in both parallel arrays while `keyArray[i] < keyArray[i-1]`,
else break.  The C++ never checks `i` against the array length, so once
`i` reaches the capacity the comparison reads past `keyArray`: undefined
behaviour, `none` here. -/
def leafBubbleGo : Nat → List Int → List RecordId → Nat →
    Option (List Int × List RecordId)
  | 0, _, _, _ => none
  | fuel + 1, keys, rids, i =>
    if i < keys.length then
      if keys.getD i 0 < keys.getD (i - 1) 0 then
        leafBubbleGo fuel (listSwap keys (i - 1) i) (listSwap rids (i - 1) i) (i + 1)
      else
        some (keys, rids)
    else
      none

/-- The sort loop, started at index `i`.  The fuel `keys.length - i + 1`
never runs out: each recursive step keeps the array length (a swap) and
increments `i`, and the loop stops (undefined, `none`) the moment `i`
reaches the length, so at most `keys.length - i + 1` steps happen. -/
def leafBubbleLoop (keys : List Int) (rids : List RecordId) (i : Nat) :
    Option (List Int × List RecordId) :=
  leafBubbleGo (keys.length - i + 1) keys rids i

/-- `BTreeIndex::insertIntoLeafNode` (btree.cpp:265-321), the
`spaceAvail > 0` branch: write the new pair at index
`numNode = capacity - spaceAvail`, run the sort loop from `numNode`
(skipped when `numNode = 0`, as the loop guard `i > 0` fails), then
decrement `spaceAvail`.  A full leaf (`spaceAvail = 0`) instead delegates to
`splitLeafNode`, modelled separately below; `none` covers both that branch
and the sort loop's out-of-bounds read. -/
def insertIntoLeafNode (n : LeafNodeInt) (rid : RecordId) (key : Int) :
    Option LeafNodeInt :=
  if n.spaceAvail > 0 then
    let numNode := n.keys.length - n.spaceAvail
    let keys := n.keys.set numNode key
    let rids := n.rids.set numNode rid
    if numNode = 0 then
      some { n with keys := keys, rids := rids, spaceAvail := n.spaceAvail - 1 }
    else
      match leafBubbleLoop keys rids numNode with
      | some (k2, r2) =>
          some { n with keys := k2, rids := r2, spaceAvail := n.spaceAvail - 1 }
      | none => none
  else
    none

/-- `BTreeIndex::splitLeafNode` (btree.cpp:623-707) up to the computation of
the promoted key.  `c` is the full leaf, `freshKeys`/`freshRids` the stale
content of the freshly allocated sibling page, `newLeafPageId` its id.  With
`L` the capacity and `m = L/2`: the loop (and, for odd `L`, the extra
branch) moves entries `[m, L)` of `c` in order into the sibling and
overwrites the vacated key slots of `c` with `-1` (the rid slots are left
alone — that assignment is commented out in the source); `spaceAvail`
becomes `L - m` in `c` and (after the odd-`L` decrement) leaves the sibling
with `L - m` entries; the sibling is spliced into the chain; the incoming
pair goes to `c` when `keyArray[L/2 - 1] >= key`, else to the sibling, via
`insertIntoLeafNode`; the promoted key is the sibling's `keyArray[0]` read
after that insertion.  `none` when the inner insertion hits the sort loop's
out-of-bounds read. -/
def splitLeafNode (key : Int) (rid : RecordId) (c : LeafNodeInt)
    (freshKeys : List Int) (freshRids : List RecordId) (newLeafPageId : PageId) :
    Option (LeafNodeInt × LeafNodeInt × Int) :=
  let L := c.keys.length
  let m := L / 2
  let cNode : LeafNodeInt :=
    { keys := c.keys.take m ++ List.replicate (L - m) (-1)
      rids := c.rids
      spaceAvail := L - m
      rightSibPageNo := newLeafPageId
      parentId := c.parentId }
  let splitNode : LeafNodeInt :=
    { keys := c.keys.drop m ++ freshKeys.drop (L - m)
      rids := c.rids.drop m ++ freshRids.drop (L - m)
      spaceAvail := if L % 2 = 0 then L - m else L - m - 1
      rightSibPageNo := c.rightSibPageNo
      parentId := c.parentId }
  if cNode.keys.getD (m - 1) 0 ≥ key then
    match insertIntoLeafNode cNode rid key with
    | some c2 => some (c2, splitNode, splitNode.keys.getD 0 0)
    | none => none
  else
    match insertIntoLeafNode splitNode rid key with
    | some r2 => some (cNode, r2, r2.keys.getD 0 0)
    | none => none

/-- `BTreeIndex::insertEntry` (btree.cpp:177-197) while `insertInRoot` holds
(the tree is a single leaf serving as root): each pair goes straight to
`insertIntoLeafNode` on the root page.  Folded over a list of pairs. -/
def insertEntryRootPhase (n : LeafNodeInt) :
    List (Int × RecordId) → Option LeafNodeInt
  | [] => some n
  | (k, r) :: rest =>
    match insertIntoLeafNode n r k with
    | some n2 => insertEntryRootPhase n2 rest
    | none => none

/-- Walk the leaf sibling chain from `start`, concatenating each leaf's
valid `(key, RID)` entries, until `right_sibling = INVALID_PAGE` (spec §8,
"Coverage").  `fuel` bounds the walk so it is total. -/
def walkLeafChain (pages : PageId → Option LeafNodeInt) (start : PageId) :
    Nat → List (Int × RecordId)
  | 0 => []
  | fuel + 1 =>
    if start = INVALID_PAGE then []
    else
      match pages start with
      | none => []
      | some n => leafEntries n ++ walkLeafChain pages n.rightSibPageNo fuel

/-- The buffer-manager effects of one `searchNode` call: the resulting page
id (`none` when the C++ returns with the out-parameter never assigned —
reading it is undefined behaviour), the `readPage` calls (each acquires a
pin), the `unPinPage` calls with their dirty flag, and the writes of
`parentId` into a child page (the only byte mutation the function
performs). -/
structure DescentEffect where
  pid : Option PageId
  pins : List PageId
  unpins : List (PageId × Bool)
  parentWrites : List (PageId × PageId)
deriving DecidableEq, Repr

/-- The `found` computation of one iteration of the `searchNode` loop
(btree.cpp:390-416): follow `pageNoArray[i]` when `key < keyArray[i]`, the
rightmost pointer when `key > keyArray[numPage-1]`, nothing otherwise. -/
def searchTarget (node : NonLeafNodeInt) (keyInt : Int) (numPage i : Nat) :
    Option PageId :=
  if keyInt < node.keys.getD i 0 then some (node.pageNoArray.getD i 0)
  else if keyInt > node.keys.getD (numPage - 1) 0 then
    some (node.pageNoArray.getD numPage 0)
  else none

/-- The `for (int i = 0; i < numPage; i++)` loop of `searchNode`
(btree.cpp:390-449), iteration index `i = numPage - remaining`.  On a hit
the C++ pins the target page (`readPage`), writes `parentId` into it, and
unpins the current page not-dirty; if `level == 1` it stores the result and
breaks, otherwise it just continues the loop — the recursive call below is
commented out in the source, so deeper levels never assign the result. -/
def searchEffLoop (node : NonLeafNodeInt) (curId : PageId) (keyInt : Int)
    (numPage : Nat) : Nat → DescentEffect → DescentEffect
  | 0, acc => acc
  | remaining + 1, acc =>
    match searchTarget node keyInt numPage (numPage - (remaining + 1)) with
    | some target =>
      if node.level = 1 then
        { pid := some target
          pins := acc.pins ++ [target]
          unpins := acc.unpins ++ [(curId, false)]
          parentWrites := acc.parentWrites ++ [(target, curId)] }
      else
        searchEffLoop node curId keyInt numPage remaining
          { pid := acc.pid
            pins := acc.pins ++ [target]
            unpins := acc.unpins ++ [(curId, false)]
            parentWrites := acc.parentWrites ++ [(target, curId)] }
    | none => searchEffLoop node curId keyInt numPage remaining acc

/-- One `searchNode(pid, key, currentId)` call (btree.cpp:371-450) on the
node stored at `currentId`: pin the current page, then run the loop over
the `numPage = capacity - spaceAvail` valid separators. -/
def searchNodeEffect (node : NonLeafNodeInt) (currentId : PageId) (key : Int) :
    DescentEffect :=
  searchEffLoop node currentId key (node.keys.length - node.spaceAvail)
    (node.keys.length - node.spaceAvail)
    { pid := none, pins := [currentId], unpins := [], parentWrites := [] }

/-- The page id `searchNode` hands back through its out-parameter, `none`
when the function returns without assigning it. -/
def searchNode (node : NonLeafNodeInt) (currentId : PageId) (key : Int) :
    Option PageId :=
  (searchNodeEffect node currentId key).pid

/-- The scan-state member variables of `BTreeIndex` that `startScan`,
`scanNext` and `endScan` read and write; `currentNode` is the leaf the
pinned `currentPageData` frame holds. -/
structure ScanState where
  scanExecuting : Bool
  nextEntry : Int
  currentPageNum : PageId
  currentNode : LeafNodeInt
  lowValInt : Int
  highValInt : Int
  lowOp : Operator
  highOp : Operator
deriving DecidableEq, Repr

/-- `BTreeIndex::endScan` (btree.cpp:867-882) on an executing scan: clear
the scan variables.  `currentPageNum` becomes `(PageId)-1` and the operator
members are set from `NULL` (= 0, the first enumerator, `LT`). -/
def endScan (s : ScanState) : ScanState :=
  { s with
      scanExecuting := false
      nextEntry := -1
      currentPageNum := 4294967295
      lowOp := Operator.LT
      highOp := Operator.LT
      lowValInt := -1
      highValInt := -1 }

/-- `BTreeIndex::startScan` (btree.cpp:764-788), verbatim: validate the
operator codes; store the operators and `lowValInt`; store into
`highValInt` the word obtained by *dereferencing the high operator
parameter cast to a pointer* (`highValInt = *(int *)highOpParm;`,
btree.cpp:778 — the value actually read is whatever sits at that invalid
address, passed in here as `highOpDeref`; `highValParm` is never read);
raise `BadScanrange` when `lowValInt` exceeds that; end a running scan; set
`scanExecuting`.  The second component lists the pages the call reads
(pins): the function performs no `readPage` or `allocPage` at all, so it is
always `[]` — no descent, no positioning of `nextEntry` or
`currentPageNum`, and no path raising `NoSuchKeyFound`. -/
def startScan (s : ScanState) (lowValParm : Int) (lowOpParm : Operator)
    (highValParm : Int) (highOpParm : Operator) (highOpDeref : Int) :
    Except BTError ScanState × List PageId :=
  if ¬ ((lowOpParm = Operator.GT ∨ lowOpParm = Operator.GTE) ∧
        (highOpParm = Operator.LT ∨ highOpParm = Operator.LTE)) then
    (Except.error BTError.BadOpcodes, [])
  else
    let s1 := { s with
                  lowOp := lowOpParm
                  highOp := highOpParm
                  lowValInt := lowValParm
                  highValInt := highOpDeref }
    if s1.lowValInt > s1.highValInt then (Except.error BTError.BadScanrange, [])
    else
      let s2 := if s1.scanExecuting then endScan s1 else s1
      (Except.ok { s2 with scanExecuting := true }, [])

/-- `BTreeIndex::keyCorrect` (btree.cpp:844-862), with its exact nesting of
conditionals.  For the four valid operator combinations it returns the
conjunction of both bound checks; every other combination falls off the end
of the non-void function — undefined behaviour, `none` here. -/
def keyCorrect (lowOp highOp : Operator) (lowVal highVal key : Int) :
    Option Bool :=
  if lowOp = Operator.GTE then
    if highOp = Operator.LTE then some (decide (key ≤ highVal ∧ key ≥ lowVal))
    else if highOp = Operator.LT then some (decide (key < highVal ∧ key ≥ lowVal))
    else none
  else
    if lowOp = Operator.GT then
      if highOp = Operator.LTE then some (decide (key ≤ highVal ∧ key > lowVal))
      else if highOp = Operator.LT then some (decide (key < highVal ∧ key > lowVal))
      else none
    else none

/-- What one `scanNext` call does: raise, move to the right sibling (no RID
written this call), write the out-parameter `outRid` (recording also the key
read at that position), do nothing (the key failed `keyCorrect`; the C++
neither advances nor throws), or undefined behaviour. -/
inductive ScanNextResult
  | threw (e : BTError)
  | movedToSibling (sibling : PageId)
  | yielded (outRid : RecordId) (key : Int)
  | noProgress
  | undef
deriving DecidableEq, Repr

/-- `BTreeIndex::scanNext` (btree.cpp:797-831), verbatim.  `leafOccupancy`
is the leaf capacity (`INTARRAYLEAFSIZE = currentNode.keys.length`).  When
`nextEntry` equals the capacity, `ridArray[nextEntry]` reads the bytes of
`rightSibPageNo` — the taken branch (move to sibling / complete) is the
same either way, so the read is folded into the disjunction as in the
source; a `nextEntry` outside `[0, capacity]` reads wild memory, `undef`.
`outRid` is written only when `keyCorrect` accepts the key. -/
def scanNext (s : ScanState) : ScanNextResult :=
  let node := s.currentNode
  let cap : Int := (node.keys.length : Int)
  if ¬ s.scanExecuting then ScanNextResult.threw BTError.ScanNotInitialized
  else if s.nextEntry = -1 then ScanNextResult.threw BTError.IndexScanCompleted
  else if s.nextEntry < 0 ∨ s.nextEntry > cap then ScanNextResult.undef
  else
    let idx := s.nextEntry.toNat
    if (node.rids.getD idx default).page_number = 0 ∨ s.nextEntry = cap then
      if node.rightSibPageNo = 0 then
        ScanNextResult.threw BTError.IndexScanCompleted
      else ScanNextResult.movedToSibling node.rightSibPageNo
    else
      match keyCorrect s.lowOp s.highOp s.lowValInt s.highValInt
          (node.keys.getD idx 0) with
      | some true =>
          ScanNextResult.yielded (node.rids.getD idx default) (node.keys.getD idx 0)
      | some false => ScanNextResult.noProgress
      | none => ScanNextResult.undef

/-- The key satisfies the stored low bound under the stored low operator
(spec §4.4, predicate evaluation). -/
def lowSatisfied (op : Operator) (lowVal key : Int) : Prop :=
  (op = Operator.GT ∧ key > lowVal) ∨ (op = Operator.GTE ∧ key ≥ lowVal)

/-- The key satisfies the stored high bound under the stored high
operator. -/
def highSatisfied (op : Operator) (highVal key : Int) : Prop :=
  (op = Operator.LT ∧ key < highVal) ∨ (op = Operator.LTE ∧ key ≤ highVal)

/-- `IndexMetaInfo`: the meta page's fields, modelled from the spec's meta
node (§3) as the constructor uses them. -/
structure IndexMetaInfo where
  relationName : String
  attrByteOffset : Int
  attrType : Datatype
  rootPageNo : PageId
deriving DecidableEq, Repr

/-- The open path of the constructor (btree.cpp:70-83): read (pin) the meta
page, compare `relationName`, then `attrType`, then `attrByteOffset`
against it, throwing `BadIndexInfo` on the first mismatch; only on the
all-match path is the meta page unpinned (btree.cpp:82) — the throws leave
it pinned, `FileNotFoundException` being the only exception the enclosing
`try` catches.  The second component records whether the meta page was
unpinned before the call returned. -/
def btreeOpenExisting (relationName : String) (attrByteOffset : Int)
    (attrType : Datatype) (meta : IndexMetaInfo) :
    Except BTError Unit × Bool :=
  if relationName ≠ meta.relationName then (Except.error BTError.BadIndexInfo, false)
  else if attrType ≠ meta.attrType then (Except.error BTError.BadIndexInfo, false)
  else if attrByteOffset ≠ meta.attrByteOffset then
    (Except.error BTError.BadIndexInfo, false)
  else (Except.ok (), true)

/-- How a `BTreeIndex` constructor call ends. -/
inductive CtorResult
  | silentReturn
  | opened (metaUnpinned : Bool)
  | raised (e : BTError) (metaUnpinned : Bool)
  | builtNew
deriving DecidableEq, Repr

/-- `BTreeIndex::BTreeIndex` (btree.cpp:39-144) up to its control-flow
skeleton: a non-`INTEGER` attribute type prints "Incorrect data type." and
*returns* (btree.cpp:59-62) — no exception, the constructor completes;
otherwise the index file is opened and validated when it exists
(`existing = some meta`), or created and bulk-loaded when it does not. -/
def btreeIndexConstruct (relationName : String) (attrByteOffset : Int)
    (attrType : Datatype) (existing : Option IndexMetaInfo) : CtorResult :=
  if attrType ≠ Datatype.INTEGER then CtorResult.silentReturn
  else
    match existing with
    | some m =>
      match btreeOpenExisting relationName attrByteOffset attrType m with
      | (Except.ok _, u) => CtorResult.opened u
      | (Except.error e, u) => CtorResult.raised e u
    | none => CtorResult.builtNew

/-! ## Concrete inputs and the claims' theorems -/

/-- `keys[0] ≤ keys[1] ≤ … ` : the sortedness the spec demands of a leaf's
valid prefix. -/
def keysNondecreasing : List Int → Bool
  | [] => true
  | [_] => true
  | a :: b :: rest => a ≤ b && keysNondecreasing (b :: rest)

/-- A leaf of capacity 5 with three valid entries `(3,·) (5,·) (9,·)`;
slots 3 and 4 hold stale values (0 and 100). -/
def leafC3 : LeafNodeInt :=
  { keys := [3, 5, 9, 0, 100]
    rids := [⟨1, 1⟩, ⟨2, 2⟩, ⟨3, 3⟩, ⟨0, 0⟩, ⟨0, 0⟩]
    spaceAvail := 2
    rightSibPageNo := 0
    parentId := -1 }

/-- What inserting `(1, ⟨4,4⟩)` into `leafC3` actually produces: the new
key is appended at index 3 and swapped exactly one slot leftward before the
incrementing loop index walks away from it, leaving the valid prefix
`[3, 5, 1, 9]`. -/
def leafC3res : LeafNodeInt :=
  { keys := [3, 5, 1, 9, 100]
    rids := [⟨1, 1⟩, ⟨2, 2⟩, ⟨4, 4⟩, ⟨3, 3⟩, ⟨0, 0⟩]
    spaceAvail := 1
    rightSibPageNo := 0
    parentId := -1 }

/-- C3: the claim reads "sifts it leftward by pairwise swaps until the key
array is non-decreasing … afterwards keys[0] ≤ … ≤ keys[occupied-1]".  The
sort loop of `insertIntoLeafNode` increments its index (`i++` where the
surrounding comments describe bubbling into place, btree.cpp:292), so the
new key moves at most one slot left: inserting key 1 into the leaf
`[3, 5, 9]` (occupied 3 < L = 5) yields occupied prefix `[3, 5, 1, 9]`,
which is not sorted. -/
theorem insertIntoLeafNode_breaks_sort :
    insertIntoLeafNode leafC3 ⟨4, 4⟩ 1 = some leafC3res ∧
    keysNondecreasing (leafC3res.keys.take leafC3res.occupied) = false := by
  decide

/-- A full leaf of capacity `L = 4`: keys `[10, 20, 30, 40]`. -/
def leafC4 : LeafNodeInt :=
  { keys := [10, 20, 30, 40]
    rids := [⟨1, 1⟩, ⟨2, 2⟩, ⟨3, 3⟩, ⟨4, 4⟩]
    spaceAvail := 0
    rightSibPageNo := 0
    parentId := -1 }

/-- C4: the claim's split mechanics (`m = L/2`, move, splice, promote) do
match the source, but its "the incoming pair is then inserted into C"
step runs the broken sort loop of `insertIntoLeafNode` on a half whose
vacated slots were just overwritten with `-1`: inserting key 15 into the
full leaf `[10, 20, 30, 40]` splits it into `C = [10, 20, -1, -1]` and
`R = [30, 40]`, routes 15 to `C` (15 ≤ 20), where the loop swaps 15 into
place, then swaps the stale `-1` into the valid region and keeps walking
right until it reads past the end of `keyArray` — undefined behaviour, so
the operation never reaches the state the claim describes. -/
theorem splitLeafNode_insert_overruns :
    splitLeafNode 15 ⟨5, 5⟩ leafC4 [0, 0, 0, 0] [⟨0, 0⟩, ⟨0, 0⟩, ⟨0, 0⟩, ⟨0, 0⟩] 7 =
      none := by
  decide

/-- A freshly built root leaf of capacity 5 (constructor build path,
btree.cpp:115-119): `spaceAvail = L`, no sibling; the never-initialised
key slots happen to hold `[0, 0, 0, 0, 9]` and the rid slots
`⟨7,7⟩` at index 3. -/
def leafC1 : LeafNodeInt :=
  { keys := [0, 0, 0, 0, 9]
    rids := [⟨0, 0⟩, ⟨0, 0⟩, ⟨0, 0⟩, ⟨7, 7⟩, ⟨0, 0⟩]
    spaceAvail := 5
    rightSibPageNo := 0
    parentId := -1 }

/-- The pairs handed to `insertEntry` in the C1 scenario. -/
def insertedC1 : List (Int × RecordId) := [(5, ⟨1, 1⟩), (9, ⟨2, 2⟩), (7, ⟨3, 3⟩)]

/-- The root leaf the three insertions actually leave behind: inserting 7
appends it at index 2, one swap puts it before 9, and then the incrementing
loop index swaps the stale slot-3 pair `(0, ⟨7,7⟩)` leftward into the valid
region, pushing `(9, ⟨2,2⟩)` beyond `occupied`. -/
def leafC1final : LeafNodeInt :=
  { keys := [5, 7, 0, 9, 9]
    rids := [⟨1, 1⟩, ⟨3, 3⟩, ⟨7, 7⟩, ⟨2, 2⟩, ⟨0, 0⟩]
    spaceAvail := 2
    rightSibPageNo := 0
    parentId := -1 }

/-- The index's pages after the C1 scenario: the single root leaf at page
2. -/
def pagesC1 : PageId → Option LeafNodeInt :=
  fun p => if p = 2 then some leafC1final else none

/-- C1: inserting `(5,⟨1,1⟩) (9,⟨2,2⟩) (7,⟨3,3⟩)` into a fresh single-leaf
index leaves the leaf chain holding the multiset
`{(5,⟨1,1⟩), (7,⟨3,3⟩), (0,⟨7,7⟩)}`: the pair `(9,⟨2,2⟩)` was pushed past
`occupied` by the broken sort loop and a stale pair surfaced in its place,
so the chain's multiset differs from the multiset of inserted pairs. -/
theorem insertEntry_coverage_lost :
    insertEntryRootPhase leafC1 insertedC1 = some leafC1final ∧
    (Multiset.ofList (walkLeafChain pagesC1 2 3) =
        Multiset.ofList insertedC1 ↔ False) := by
  decide

/-- A full level-1 internal node: separators `[10, 20]`, children
`[4, 5, 6]`. -/
def nodeC5 : NonLeafNodeInt :=
  { keys := [10, 20]
    pageNoArray := [4, 5, 6]
    spaceAvail := 0
    level := 1
    parentId := -1 }

/-- A level-0 internal node (its children are themselves internal):
separator `[50]`, children `[8, 9]`. -/
def nodeC5deep : NonLeafNodeInt :=
  { keys := [50]
    pageNoArray := [8, 9]
    spaceAvail := 0
    level := 0
    parentId := -1 }

/-- C5: the claim says a key equal to a separator routes right and the
descent always reaches a leaf.  But the loop only handles `key <
keyArray[i]` and `key > keyArray[numPage-1]` (btree.cpp:401,408), so a key
*equal* to the largest separator matches neither and the out-parameter is
never assigned (`none`); and because the recursive call is commented out
(btree.cpp:446) a node whose `level ≠ 1` never assigns it either, so no
leaf is reached below depth 2. -/
theorem searchNode_misses_max_separator :
    searchNode nodeC5 3 20 = none ∧ searchNode nodeC5deep 3 12 = none := by
  decide

/-- C6 counterexample: one descent step at the level-1 node `nodeC5`
(pinned as page 3) for key 15 follows child page 5 — and pins page 5
without ever unpinning it, and writes `parentId := 3` into page 5's bytes.
Descent is therefore neither read-only nor pin-neutral. -/
theorem searchNode_writes_parent_pointer :
    searchNodeEffect nodeC5 3 15 =
      { pid := some 5
        pins := [3, 5]
        unpins := [(3, false)]
        parentWrites := [(5, 3)] } ∧
    ((searchNodeEffect nodeC5 3 15).parentWrites = [] ↔ False) := by
  decide

/-- Helper for the amended C6: on a level-1 node, whenever the loop ends
with the out-parameter assigned to `t`, it has performed exactly one extra
pin (of `t`), one unpin of the current page (not-dirty) and one parent
write into `t` beyond what was accumulated before. -/
theorem searchEffLoop_level1_found (node : NonLeafNodeInt) (curId : PageId)
    (keyInt : Int) (numPage : Nat) (hl : node.level = 1) :
    ∀ (remaining : Nat) (acc : DescentEffect) (t : PageId), acc.pid = none →
      (searchEffLoop node curId keyInt numPage remaining acc).pid = some t →
      searchEffLoop node curId keyInt numPage remaining acc =
        { pid := some t
          pins := acc.pins ++ [t]
          unpins := acc.unpins ++ [(curId, false)]
          parentWrites := acc.parentWrites ++ [(t, curId)] } := by
  intro remaining
  induction remaining with
  | zero =>
    intro acc t h0 hres
    simp only [searchEffLoop] at hres
    rw [h0] at hres
    exact absurd hres (by simp)
  | succ k ih =>
    intro acc t h0 hres
    simp only [searchEffLoop, hl, if_true] at hres ⊢
    cases htv : searchTarget node keyInt numPage (numPage - (k + 1)) with
    | some target =>
      rw [htv] at hres
      dsimp only at hres
      injection hres with h2
      subst h2
      rfl
    | none =>
      rw [htv] at hres
      exact ih acc t h0 hres

/-- C6 (amended): on the level-1 step that concludes the descent, the
traversed internal node itself is left unmodified and is unpinned
not-dirty exactly once before the operation advances, as the claim says;
but the descent is not read-only — the followed child page gets its
`parentId` field overwritten (its bytes change) and is left pinned when
`searchNode` returns. -/
theorem searchNode_descent_effect (node : NonLeafNodeInt) (curId t : PageId)
    (key : Int) (hl : node.level = 1)
    (h : (searchNodeEffect node curId key).pid = some t) :
    searchNodeEffect node curId key =
      { pid := some t
        pins := [curId, t]
        unpins := [(curId, false)]
        parentWrites := [(t, curId)] } := by
  unfold searchNodeEffect at h ⊢
  exact searchEffLoop_level1_found node curId key _ hl _ _ t rfl h

/-- Witness for the amended C6 at a concrete input: descending for key 25
at `nodeC5` (pinned as page 3) follows the rightmost child 6, unpins page 3
not-dirty, and leaves page 6 pinned with its parent pointer rewritten. -/
theorem searchNode_descent_effect_witness :
    searchNodeEffect nodeC5 3 25 =
      { pid := some 6
        pins := [3, 6]
        unpins := [(3, false)]
        parentWrites := [(6, 3)] } :=
  searchNode_descent_effect nodeC5 3 6 25 (by decide) (by decide)

/-- An idle scan state (no scan executing); `nextEntry` and
`currentPageNum` still hold the garbage values 7777 and 9999 from whatever
ran before. -/
def idleC2 : ScanState :=
  { scanExecuting := false
    nextEntry := 7777
    currentPageNum := 9999
    currentNode :=
      { keys := [], rids := [], spaceAvail := 0, rightSibPageNo := 0, parentId := -1 }
    lowValInt := -1
    highValInt := -1
    lowOp := Operator.LT
    highOp := Operator.LT }

/-- C2: a valid `startScan(1, GTE, 10, LTE)` (the word read through the
bad high-value dereference being 50) returns successfully having performed
no page read at all (`[]` — nothing is pinned), with `nextEntry` still 7777
and `currentPageNum` still 9999: the scan is never positioned on the first
qualifying entry, no leaf is pinned, and — the call not even consulting the
tree — `NoSuchKeyFound` is never raised for an empty range. -/
theorem startScan_does_not_position :
    startScan idleC2 1 Operator.GTE 10 Operator.LTE 50 =
      (Except.ok
        { idleC2 with
            scanExecuting := true
            lowOp := Operator.GTE
            highOp := Operator.LTE
            lowValInt := 1
            highValInt := 50 }, []) := rfl

/-- C7: the range check compares `lowValInt` against the word read by
dereferencing the *operator* argument (`highValInt = *(int *)highOpParm;`,
btree.cpp:778), never against `highValParm`.  First conjunct: the outcome
is literally independent of the high value passed in.  Second conjunct:
`start_scan(10, GTE, 5, LTE)` — the claim's own example, which must raise
`BadScanrange` since 10 > 5 — returns `ok` whenever the garbage word (here
50) is at least 10. -/
theorem startScan_range_check_ignores_high :
    (∀ h1 h2 : Int,
        startScan idleC2 10 Operator.GTE h1 Operator.LTE 50 =
          startScan idleC2 10 Operator.GTE h2 Operator.LTE 50) ∧
    startScan idleC2 10 Operator.GTE 5 Operator.LTE 50 =
      (Except.ok
        { idleC2 with
            scanExecuting := true
            lowOp := Operator.GTE
            highOp := Operator.LTE
            lowValInt := 10
            highValInt := 50 }, []) :=
  ⟨fun _ _ => rfl, rfl⟩

/-- A meta page recorded for relation "relB", offset 4, INTEGER, root at
page 2. -/
def metaC9 : IndexMetaInfo :=
  { relationName := "relB", attrByteOffset := 4, attrType := Datatype.INTEGER,
    rootPageNo := 2 }

/-- C9 counterexample: opening with a mismatched relation name ("relA"
against the stored "relB") does raise `BadIndexInfo`, but the meta page is
*not* unpinned before the constructor exits — the unpin (btree.cpp:82) sits
after the three checks and the thrown exception skips it, so the failure
path leaves a dangling pin. -/
theorem open_mismatch_leaves_meta_pinned :
    btreeOpenExisting "relA" 4 Datatype.INTEGER metaC9 =
      (Except.error BTError.BadIndexInfo, false) ∧
    ((btreeOpenExisting "relA" 4 Datatype.INTEGER metaC9).2 = true ↔ False) :=
  ⟨rfl, by decide⟩

/-- C9 (amended): the open path compares all three requested fields against
the meta page, succeeds exactly when they all match, and raises
`BadIndexInfo` on any mismatch — but the meta page is unpinned only on the
success path; on every mismatch path it is left pinned when the exception
propagates. -/
theorem open_meta_validation (rn : String) (off : Int) (ty : Datatype)
    (m : IndexMetaInfo) :
    ((btreeOpenExisting rn off ty m).1 = Except.ok () ↔
      (rn = m.relationName ∧ ty = m.attrType ∧ off = m.attrByteOffset)) ∧
    ((btreeOpenExisting rn off ty m).1 = Except.error BTError.BadIndexInfo ∨
      (btreeOpenExisting rn off ty m).1 = Except.ok ()) ∧
    ((btreeOpenExisting rn off ty m).2 = true ↔
      (rn = m.relationName ∧ ty = m.attrType ∧ off = m.attrByteOffset)) := by
  unfold btreeOpenExisting
  by_cases h1 : rn = m.relationName <;> by_cases h2 : ty = m.attrType <;>
    by_cases h3 : off = m.attrByteOffset <;> simp [h1, h2, h3]

/-- A meta page whose fields match the C8 request exactly (apart from the
type being DOUBLE on both sides). -/
def metaC8 : IndexMetaInfo :=
  { relationName := "relC8", attrByteOffset := 4, attrType := Datatype.DOUBLE,
    rootPageNo := 2 }

/-- C8: constructing with `attr_type = DOUBLE` ends in `silentReturn` —
the C++ prints "Incorrect data type." and plain-returns (btree.cpp:59-62),
handing back a constructed but unusable object — whether or not an index
file exists; no `BadIndexInfo` is raised. -/
theorem constructor_wrong_type_silent :
    btreeIndexConstruct "relC8" 4 Datatype.DOUBLE none = CtorResult.silentReturn ∧
    btreeIndexConstruct "relC8" 4 Datatype.DOUBLE (some metaC8) =
      CtorResult.silentReturn := by
  decide

/-- C10: whenever `scanNext` writes the out-parameter `outRid`, the key at
the yielded position satisfies *both* the stored low bound (under the
stored low operator) and the stored high bound (under the stored high
operator): the only branch that writes `outRid` (btree.cpp:823-825) is
guarded by `keyCorrect`, which checks the full predicate for every valid
operator combination. -/
theorem scanNext_yield_in_range (s : ScanState) (r : RecordId) (k : Int)
    (h : scanNext s = ScanNextResult.yielded r k) :
    lowSatisfied s.lowOp s.lowValInt k ∧ highSatisfied s.highOp s.highValInt k := by
  unfold scanNext at h
  dsimp only at h
  split at h
  · exact absurd h (by simp)
  · split at h
    · exact absurd h (by simp)
    · split at h
      · exact absurd h (by simp)
      · split at h
        · split at h <;> exact absurd h (by simp)
        · rename_i hcap hrid
          generalize hkc : keyCorrect s.lowOp s.highOp s.lowValInt s.highValInt
            (s.currentNode.keys.getD s.nextEntry.toNat 0) = kc at h
          match kc with
          | some true =>
            simp only [ScanNextResult.yielded.injEq] at h
            obtain ⟨hr, hk⟩ := h
            subst hk
            unfold keyCorrect at hkc
            unfold lowSatisfied highSatisfied
            cases hlo : s.lowOp <;> cases hhi : s.highOp <;>
              simp [hlo, hhi] at hkc <;> simp_all
          | some false => exact absurd h (by simp)
          | none => exact absurd h (by simp)

/-- An active scan positioned at entry 0 of a one-entry leaf holding
`(5, ⟨1,1⟩)`, with stored bounds `GTE 5` and `LTE 10`. -/
def activeC10 : ScanState :=
  { scanExecuting := true
    nextEntry := 0
    currentPageNum := 2
    currentNode :=
      { keys := [5], rids := [⟨1, 1⟩], spaceAvail := 0, rightSibPageNo := 0,
        parentId := -1 }
    lowValInt := 5
    highValInt := 10
    lowOp := Operator.GTE
    highOp := Operator.LTE }

/-- Witness for C10: on `activeC10`, `scanNext` yields `(⟨1,1⟩, 5)` and the
key 5 indeed satisfies `GTE 5` and `LTE 10`. -/
theorem scanNext_yield_in_range_witness :
    lowSatisfied Operator.GTE 5 5 ∧ highSatisfied Operator.LTE 10 5 :=
  scanNext_yield_in_range activeC10 ⟨1, 1⟩ 5 (by decide)

end BadgerBTree
